import Mathlib

/-!
Shallow embedding of the saba browser engine core
(src/core/src/renderer/layout/computed_style.rs,
src/core/src/renderer/page.rs, src/core/src/display_item.rs),
with the collaborator components that the core calls but whose sources are
not part of the core (DOM node type, layout view, parsers) modelled from the
specification where unavoidable, or kept abstract as function parameters.

Machine reals (`f64`) carry only the literal `0.0` in the embedded code, so
they are modelled by `Int`; no arithmetic on them occurs anywhere.
-/

/-- Modelled from the spec: the element kinds of the DOM collaborator
(`renderer/dom/node.rs` is not part of the core sources). The kinds listed
are the ones named by the spec: document-level structure, the block-level
elements, `a`, `input`, `img`, `script`, `style`. -/
inductive ElementKind where
  | html | head | style | script | body | div
  | h1 | h2 | p | pre | ul | li | a | img | input
  deriving DecidableEq, Repr

/-- Modelled from the spec: which element kinds are block-level
(`Element::is_block_element` lives in the DOM collaborator). The spec only
says "other block-level element kinds → display Block, all others →
display Inline"; the concrete split follows standard HTML semantics. -/
def ElementKind.is_block_element (k : ElementKind) : Bool :=
  match k with
  | .body | .div | .h1 | .h2 | .p | .pre | .ul | .li => true
  | _ => false

/-- Modelled from the spec: an element of the DOM collaborator: a kind,
attributes (name/value pairs), and — for inputs — a mutable value slot
(`None` until editing populates it). -/
structure Element where
  kind : ElementKind
  attributes : List (String × String)
  value : Option String
  deriving DecidableEq, Repr

/-- Modelled from the spec: attribute lookup by name on an element
(`Element::get_attribute` of the DOM collaborator). -/
def Element.get_attribute (e : Element) (name : String) : Option String :=
  (e.attributes.find? (fun a => a.1 = name)).map (fun a => a.2)

/-- Modelled from the spec: the node kinds of the DOM collaborator:
Document / Element / Text. -/
inductive NodeKind where
  | Document : NodeKind
  | Element : Element → NodeKind
  | Text : String → NodeKind
  deriving DecidableEq, Repr

/-- Modelled from the spec: colors (`renderer/layout/color.rs` is not part
of the core sources). Only equality with the user-agent defaults white and
black matters to the core, so a color is its 24-bit code. -/
structure Color where
  code : Nat
  deriving DecidableEq, Repr

/-- Modelled from the spec: the color white (default background-color). -/
def Color.white : Color := ⟨0xffffff⟩

/-- Modelled from the spec: the color black (default color). -/
def Color.black : Color := ⟨0x000000⟩

/-- `DisplayType` from computed_style.rs. -/
inductive DisplayType where
  | Block
  | Inline
  | DisplayNone
  deriving DecidableEq, Repr

/-- `FontSize` from computed_style.rs. -/
inductive FontSize where
  | Medium
  | XLarge
  | XXLarge
  deriving DecidableEq, Repr

/-- `TextDecoration` from computed_style.rs. -/
inductive TextDecoration where
  | None
  | Underline
  deriving DecidableEq, Repr

/-- `WhiteSpace` from computed_style.rs. -/
inductive WhiteSpace where
  | Normal
  | Pre
  deriving DecidableEq, Repr

/-- `BoxInfo` from computed_style.rs: four numeric insets. -/
structure BoxInfo where
  top : Int
  right : Int
  left : Int
  bottom : Int
  deriving DecidableEq, Repr

/-- `BoxInfo::new` from computed_style.rs. -/
def BoxInfo.new (top right left bottom : Int) : BoxInfo :=
  ⟨top, right, left, bottom⟩

/-- `DisplayType::default` from computed_style.rs: document → Block,
script/style elements → DisplayNone, block-level elements → Block, other
elements and text → Inline. -/
def DisplayType.default (node : NodeKind) : DisplayType :=
  match node with
  | NodeKind.Document => DisplayType.Block
  | NodeKind.Element e =>
      if e.kind = ElementKind.script ∨ e.kind = ElementKind.style then
        DisplayType.DisplayNone
      else if e.kind.is_block_element then DisplayType.Block
      else DisplayType.Inline
  | NodeKind.Text _ => DisplayType.Inline

/-- `FontSize::default` from computed_style.rs: h1 → XXLarge, h2 → XLarge,
every other element and every non-element node → Medium. -/
def FontSize.default (node : NodeKind) : FontSize :=
  match node with
  | NodeKind.Element e =>
      match e.kind with
      | ElementKind.h1 => FontSize.XXLarge
      | ElementKind.h2 => FontSize.XLarge
      | _ => FontSize.Medium
  | _ => FontSize.Medium

/-- `FontSize::from_number` from computed_style.rs. -/
def FontSize.from_number (size : Int) : FontSize :=
  if size ≤ 12 then FontSize.Medium
  else if size ≤ 18 then FontSize.XLarge
  else FontSize.XXLarge

/-- `TextDecoration::default` from computed_style.rs: a → Underline,
everything else → None. -/
def TextDecoration.default (node : NodeKind) : TextDecoration :=
  match node with
  | NodeKind.Element e =>
      match e.kind with
      | ElementKind.a => TextDecoration.Underline
      | _ => TextDecoration.None
  | _ => TextDecoration.None

/-- `WhiteSpace::default` from computed_style.rs: p → Normal, pre → Pre,
everything else → Normal. -/
def WhiteSpace.default (node : NodeKind) : WhiteSpace :=
  match node with
  | NodeKind.Element e =>
      match e.kind with
      | ElementKind.p => WhiteSpace.Normal
      | ElementKind.pre => WhiteSpace.Pre
      | _ => WhiteSpace.Normal
  | _ => WhiteSpace.Normal

/-- `ComputedStyle` from computed_style.rs. Each field is an `Option`; the
Rust property accessors panic when the field is still `None`, which the
embedding renders as reading the `Option` itself (`none` = abort). -/
structure ComputedStyle where
  background_color : Option Color
  color : Option Color
  display : Option DisplayType
  font_size : Option FontSize
  height : Option Int
  margin : Option BoxInfo
  padding : Option BoxInfo
  text_decoration : Option TextDecoration
  white_space : Option WhiteSpace
  width : Option Int
  deriving DecidableEq, Repr

/-- `ComputedStyle::new` from computed_style.rs: every field unset. -/
def ComputedStyle.new : ComputedStyle :=
  ⟨none, none, none, none, none, none, none, none, none, none⟩

/-- One inherited property inside `ComputedStyle::defaulting`: the Rust
condition `self.f.is_none() && parent_style.f() != dflt` reads the parent
accessor (a potential panic, hence the outer `Option`) only when the
field is unset, thanks to `&&` short-circuiting. -/
def inheritStep {α : Type} [DecidableEq α] (self pf : Option α) (dflt : α) :
    Option (Option α) :=
  match self with
  | some v => some (some v)
  | none =>
      match pf with
      | none => none
      | some pv => if pv ≠ dflt then some (some pv) else some none

/-- The first half of `ComputedStyle::defaulting` (computed_style.rs lines
72–89): inheritance of background-color, color, font-size and
text-decoration from the parent's resolved style, when a parent exists. -/
def ComputedStyle.inheritPass (s : ComputedStyle)
    (parent_style : Option ComputedStyle) : Option ComputedStyle :=
  match parent_style with
  | none => some s
  | some p => do
      let bg ← inheritStep s.background_color p.background_color Color.white
      let c ← inheritStep s.color p.color Color.black
      let fs ← inheritStep s.font_size p.font_size FontSize.Medium
      let td ← inheritStep s.text_decoration p.text_decoration TextDecoration.None
      some { s with background_color := bg, color := c,
                    font_size := fs, text_decoration := td }

/-- The second half of `ComputedStyle::defaulting` (computed_style.rs lines
91–124): every still-unset field receives its user-agent default, the
node-dependent ones via the `default` functions. -/
def ComputedStyle.fillDefaults (t : ComputedStyle) (node : NodeKind) :
    ComputedStyle :=
  { background_color := some (t.background_color.getD Color.white)
    color := some (t.color.getD Color.black)
    display := some (t.display.getD (DisplayType.default node))
    font_size := some (t.font_size.getD (FontSize.default node))
    height := some (t.height.getD 0)
    margin := some (t.margin.getD (BoxInfo.new 0 0 0 0))
    padding := some (t.padding.getD (BoxInfo.new 0 0 0 0))
    text_decoration := some (t.text_decoration.getD (TextDecoration.default node))
    white_space := some (t.white_space.getD (WhiteSpace.default node))
    width := some (t.width.getD 0) }

/-- `ComputedStyle::defaulting` from computed_style.rs. The outer `Option`
models the panics that reading a not-yet-defaulted parent field raises;
`node` is the DOM node the style belongs to. -/
def ComputedStyle.defaulting (s : ComputedStyle) (node : NodeKind)
    (parent_style : Option ComputedStyle) : Option ComputedStyle :=
  (s.inheritPass parent_style).map (fun t => t.fillDefaults node)

/-- All ten fields of a `ComputedStyle` are present, i.e. every Rust
property accessor succeeds instead of panicking. -/
def ComputedStyle.isComplete (s : ComputedStyle) : Bool :=
  s.background_color.isSome && s.color.isSome && s.display.isSome &&
  s.font_size.isSome && s.height.isSome && s.margin.isSome &&
  s.padding.isSome && s.text_decoration.isSome && s.white_space.isSome &&
  s.width.isSome

/-- Modelled from the spec: a layout position (x, y)
(`renderer/layout/layout_point.rs` is not part of the core sources). -/
structure LayoutPoint where
  x : Int
  y : Int
  deriving DecidableEq, Repr

/-- Modelled from the spec: a layout size (width, height)
(`renderer/layout/layout_size.rs` is not part of the core sources). -/
structure LayoutSize where
  width : Int
  height : Int
  deriving DecidableEq, Repr

/-- `DisplayItem` from display_item.rs: the tagged union of drawable
primitives. -/
inductive DisplayItem where
  | Rect (style : ComputedStyle) (layout_point : LayoutPoint)
      (layout_size : LayoutSize)
  | Text (text : String) (style : ComputedStyle) (layout_point : LayoutPoint)
  | Img (src : String) (style : ComputedStyle) (layout_point : LayoutPoint)
  | Input (input_type : String) (name : Option String)
      (placeholder : Option String) (value : Option String)
      (style : ComputedStyle) (layout_point : LayoutPoint)
      (layout_size : LayoutSize)
  deriving DecidableEq, Repr

/-- `Subresource` from page.rs: a (source URL, resource content) pair. -/
structure Subresource where
  src : String
  resource : String
  deriving DecidableEq, Repr

/-- `Subresource::new` from page.rs: the resource content starts empty
(the TODO fetch in `push_url_for_subresource` never fills it). -/
def Subresource.new (src : String) : Subresource :=
  ⟨src, ""⟩

/-- A DOM node handle. The Rust core shares DOM nodes through
`Rc<RefCell<Node>>`; following the spec's design note, the embedding uses
an arena of nodes addressed by integer index, a handle being an index. -/
abbrev NodeId := Nat

/-- The DOM node arena: association list from handle to node kind. -/
abbrev DomStore := List (NodeId × NodeKind)

/-- Dereference a DOM handle (first binding wins, as for a map). -/
def getNode (d : DomStore) (i : NodeId) : Option NodeKind :=
  match d with
  | [] => none
  | (j, k) :: rest => if j = i then some k else getNode rest i

/-- Modelled from the spec: `Element::set_value` of the DOM collaborator
writes the mutable value slot of an input node, in place. In the arena
embedding this rewrites the node the handle points at; non-element nodes
are left unchanged. -/
def setNodeValue (d : DomStore) (i : NodeId) (v : String) : DomStore :=
  match d with
  | [] => []
  | (j, k) :: rest =>
      if j = i then
        match k with
        | NodeKind.Element e => (j, NodeKind.Element { e with value := some v }) :: rest
        | _ => (j, k) :: rest
      else (j, k) :: setNodeValue rest i v

/-- A click position in content coordinates, as `Page::clicked` takes it. -/
abbrev Pos := Int × Int

/-- What `LayoutView::find_node_by_position` exposes of the layout object
it returns: the DOM node of the deepest box containing the position, and
the DOM node of that box's layout parent when the weak parent link is
still alive (`n.borrow().parent().upgrade()`). -/
structure HitInfo where
  node : NodeId
  parent : Option NodeId
  deriving DecidableEq, Repr

/-- Modelled from the spec: the CSS collaborator's `StyleSheet` is an
ordered sequence of rules; only its presence matters to the embedded core,
so a rule is left as its source text. -/
abbrev StyleSheet := List String

/-- `Page` from page.rs, generic over the layout-view type `LV` built by
the layout collaborator (`renderer/layout/layout_view.rs` is not part of
the core sources). The `browser` weak handle only feeds debug logging and
is dropped; the shared DOM heap appears as the `dom` arena, with `frame`
the optional document root handle. -/
structure Page (LV : Type) where
  frame : Option NodeId
  dom : DomStore
  style : Option StyleSheet
  layout_view : Option LV
  subresources : List Subresource
  display_items : List DisplayItem
  modified : Bool
  focused_input : Option NodeId
  deriving DecidableEq, Repr

/-- `Page::new` from page.rs. -/
def Page.new (LV : Type) : Page LV :=
  { frame := none, dom := [], style := none, layout_view := none,
    subresources := [], display_items := [], modified := false,
    focused_input := none }

/-- Whether a DOM handle points at an `input` element, the test
`if let NodeKind::Element(e) = ... { e.kind() == ElementKind::Input }`
that `Page::clicked` and `Page::handle_input` both perform. -/
def isInputNode (d : DomStore) (i : NodeId) : Bool :=
  match getNode d i with
  | some (NodeKind.Element e) => e.kind = ElementKind.input
  | _ => false

/-- `Page::clicked` from page.rs, with the layout collaborator's
hit-testing passed in as `hit`. Returns the optional navigation target
together with the page after the click (the Rust method mutates `self`). -/
def Page.clicked {LV : Type} (hit : LV → Pos → Option HitInfo)
    (p : Page LV) (position : Pos) : Option String × Page LV :=
  match p.layout_view with
  | none => (none, p)
  | some view =>
      match hit view position with
      | some n =>
          if isInputNode p.dom n.node then
            (none, { p with focused_input := some n.node })
          else
            let p' := { p with focused_input := none }
            match n.parent with
            | some parentId =>
                match getNode p.dom parentId with
                | some (NodeKind.Element e) =>
                    if e.kind = ElementKind.a then
                      (e.get_attribute "href", p')
                    else (none, p')
                | _ => (none, p')
            | none => (none, p')
      | none => (none, p)

/-- The backspace/delete test of `Page::handle_input`:
`key == 0x7F as char || key == 0x08 as char`. -/
def isBackspaceKey (key : Char) : Bool :=
  key = Char.ofNat 0x7F ∨ key = Char.ofNat 0x08

/-- The printable test of `Page::handle_input`:
`key.is_ascii_graphic() || key == ' '` (ASCII graphic = U+0021 ..= U+007E). -/
def isPrintableKey (key : Char) : Bool :=
  (0x21 ≤ key.toNat ∧ key.toNat ≤ 0x7E) ∨ key = ' '

/-- `Page::handle_input` from page.rs. Returns the reported boolean and
the page after the edit (the value slot of the focused input lives in the
shared DOM, hence in the page's arena). -/
def Page.handle_input {LV : Type} (p : Page LV) (key : Char) :
    Bool × Page LV :=
  match p.focused_input with
  | none => (false, p)
  | some i =>
      match getNode p.dom i with
      | some (NodeKind.Element e) =>
          if e.kind = ElementKind.input then
            let current := e.value.getD ""
            if isBackspaceKey key then
              if current.toList = [] then (true, p)
              else
                (true, { p with
                  dom := setNodeValue p.dom i (String.mk current.toList.dropLast) })
            else if isPrintableKey key then
              (true, { p with dom := setNodeValue p.dom i (current.push key) })
            else (true, p)
          else (false, p)
      | _ => (false, p)

/-- `Page::has_focused_input` from page.rs. -/
def Page.has_focused_input {LV : Type} (p : Page LV) : Bool :=
  p.focused_input.isSome

/-- `Page::set_layout_view` from page.rs: rebuild the layout view from the
current DOM and stylesheet via the layout collaborator `build`
(`LayoutView::new`); a missing frame or stylesheet makes it a no-op. -/
def Page.set_layout_view {LV : Type}
    (build : NodeId → DomStore → StyleSheet → LV) (p : Page LV) : Page LV :=
  match p.frame with
  | none => p
  | some root =>
      match p.style with
      | none => p
      | some st => { p with layout_view := some (build root p.dom st) }

/-- `Page::paint_tree` from page.rs: replace the display list with the
paint of the current layout view; a no-op when no layout view exists. -/
def Page.paint_tree {LV : Type} (paint : LV → List DisplayItem)
    (p : Page LV) : Page LV :=
  match p.layout_view with
  | none => p
  | some v => { p with display_items := paint v }

/-- `Page::refresh_display` from page.rs: `set_layout_view` then
`paint_tree`. -/
def Page.refresh_display {LV : Type}
    (build : NodeId → DomStore → StyleSheet → LV)
    (paint : LV → List DisplayItem) (p : Page LV) : Page LV :=
  (p.set_layout_view build).paint_tree paint

/-- `Page::push_url_for_subresource` from page.rs: register the URL with a
fresh (empty-content) subresource; the TODO fetch is absent in the code. -/
def Page.push_url_for_subresource {LV : Type} (p : Page LV) (src : String) :
    Page LV :=
  { p with subresources := p.subresources ++ [Subresource.new src] }

/-- `Page::subresource` from page.rs: first subresource whose source URL
matches, empty string on miss. -/
def Page.subresource {LV : Type} (p : Page LV) (src : String) : String :=
  match p.subresources.find? (fun s => s.src = src) with
  | some s => s.resource
  | none => ""

/-- `Page::display_items` from page.rs. -/
def Page.display_items_get {LV : Type} (p : Page LV) : List DisplayItem :=
  p.display_items

/-- `Page::clear_display_items` from page.rs. -/
def Page.clear_display_items {LV : Type} (p : Page LV) : Page LV :=
  { p with display_items := [] }

lemma inheritStep_some {α : Type} [DecidableEq α] (v : α) (pf : Option α)
    (dflt : α) : inheritStep (some v) pf dflt = some (some v) := rfl

lemma inheritStep_none {α : Type} [DecidableEq α] (pv dflt : α) :
    inheritStep none (some pv) dflt =
      some (if pv = dflt then none else some pv) := by
  by_cases h : pv = dflt <;> simp [inheritStep, h]

lemma defaulting_no_parent (s : ComputedStyle) (node : NodeKind) :
    s.defaulting node none = some (s.fillDefaults node) := rfl

/-- With every inherited field of the parent present (the parent has been
defaulted), `defaulting` succeeds and each field of the result is the
declared value if any, else the inherited value if the parent is off the
user-agent default, else the (node-dependent) user-agent default. -/
lemma defaulting_fields (s : ComputedStyle) (node : NodeKind)
    (parent : ComputedStyle) (pbg pc : Color) (pfs : FontSize)
    (ptd : TextDecoration)
    (hbg : parent.background_color = some pbg) (hc : parent.color = some pc)
    (hfs : parent.font_size = some pfs)
    (htd : parent.text_decoration = some ptd) :
    s.defaulting node (some parent) = some {
      background_color := some (match s.background_color with
        | some v => v
        | none => if pbg = Color.white then Color.white else pbg),
      color := some (match s.color with
        | some v => v
        | none => if pc = Color.black then Color.black else pc),
      display := some (s.display.getD (DisplayType.default node)),
      font_size := some (match s.font_size with
        | some v => v
        | none => if pfs = FontSize.Medium then FontSize.default node else pfs),
      height := some (s.height.getD 0),
      margin := some (s.margin.getD (BoxInfo.new 0 0 0 0)),
      padding := some (s.padding.getD (BoxInfo.new 0 0 0 0)),
      text_decoration := some (match s.text_decoration with
        | some v => v
        | none => if ptd = TextDecoration.None then TextDecoration.default node
                  else ptd),
      white_space := some (s.white_space.getD (WhiteSpace.default node)),
      width := some (s.width.getD 0) } := by
  obtain ⟨sbg, sc, sd, sfs, sh, sm, sp, std, sws, sw⟩ := s
  simp only [ComputedStyle.defaulting, ComputedStyle.inheritPass, hbg, hc,
    hfs, htd]
  cases sbg <;> cases sc <;> cases sfs <;> cases std <;>
    simp [inheritStep_some, inheritStep_none, ComputedStyle.fillDefaults] <;>
    split_ifs <;> simp_all

/-- An h1 element with no attributes and no value. -/
def h1Elem : Element := ⟨ElementKind.h1, [], none⟩

/-- An h2 element with no attributes and no value. -/
def h2Elem : Element := ⟨ElementKind.h2, [], none⟩

/-- An `a` element carrying an href attribute. -/
def anchorElem : Element := ⟨ElementKind.a, [("href", "http://example.com/")], none⟩

/-- An input element with no attributes and no value yet. -/
def inputElem : Element := ⟨ElementKind.input, [("type", "text")], none⟩

/-- The resolved style of a document node with nothing declared: every
field at its user-agent default. -/
def docStyle : ComputedStyle :=
  (ComputedStyle.new.defaulting NodeKind.Document none).getD ComputedStyle.new

/-- The resolved style of an h2 element with nothing declared (its
font-size is XLarge by the element-kind default). -/
def h2Style : ComputedStyle :=
  (ComputedStyle.new.defaulting (NodeKind.Element h2Elem) none).getD
    ComputedStyle.new

/-- C4 counterexample: the claim says an unset font-size whose parent
resolved to Medium resolves to Medium, with the same shape as color versus
black; but for an h1 node `ComputedStyle::defaulting` falls back to
`FontSize::default`, giving XXLarge, not Medium. -/
theorem h1_fallback_not_medium_cex :
    (ComputedStyle.new.defaulting (NodeKind.Element h1Elem)
        (some docStyle)).map ComputedStyle.font_size =
      some (some FontSize.XXLarge) ∧ FontSize.XXLarge ≠ FontSize.Medium := by
  decide

/-- C4 (amended): during defaulting with a resolved parent, an unset
color inherits the parent's color iff it differs from black and otherwise
resolves to black, and likewise background-color versus white; an unset
font-size (resp. text-decoration) inherits the parent's value iff it
differs from Medium (resp. None), but otherwise falls back to the
element-kind default `FontSize::default` (resp. `TextDecoration::default`),
which need not be Medium (resp. None). -/
theorem defaulting_inherits_unless_parent_default (s : ComputedStyle)
    (node : NodeKind) (parent : ComputedStyle) (pbg pc : Color)
    (pfs : FontSize) (ptd : TextDecoration)
    (hbg : parent.background_color = some pbg) (hc : parent.color = some pc)
    (hfs : parent.font_size = some pfs)
    (htd : parent.text_decoration = some ptd) :
    ∃ t, s.defaulting node (some parent) = some t ∧
      (s.color = none →
        t.color = some (if pc = Color.black then Color.black else pc)) ∧
      (s.background_color = none →
        t.background_color =
          some (if pbg = Color.white then Color.white else pbg)) ∧
      (s.font_size = none →
        t.font_size =
          some (if pfs = FontSize.Medium then FontSize.default node
                else pfs)) ∧
      (s.text_decoration = none →
        t.text_decoration =
          some (if ptd = TextDecoration.None then TextDecoration.default node
                else ptd)) := by
  refine ⟨_, defaulting_fields s node parent pbg pc pfs ptd hbg hc hfs htd,
    ?_, ?_, ?_, ?_⟩ <;> intro h <;> simp [h]

/-- C4 witness: instantiating the inheritance theorem at a fresh style
whose parent carries the all-default document style resolves color to
black. -/
theorem defaulting_inherits_witness :
    (ComputedStyle.new.defaulting NodeKind.Document (some docStyle)).map
      ComputedStyle.color = some (some Color.black) := by
  obtain ⟨t, ht, hcol, -, -, -⟩ :=
    defaulting_inherits_unless_parent_default ComputedStyle.new
      NodeKind.Document docStyle Color.white Color.black FontSize.Medium
      TextDecoration.None (by decide) (by decide) (by decide) (by decide)
  rw [ht]
  simp [hcol rfl]

/-- C5 counterexample: the claim says every h1 element with no explicit
font-size resolves to XXLarge, but an h1 whose parent's resolved font-size
is XLarge (an undecorated h2, say) inherits XLarge instead. -/
theorem h1_inherits_parent_font_size_cex :
    (ComputedStyle.new.defaulting (NodeKind.Element h1Elem)
        (some h2Style)).map ComputedStyle.font_size =
      some (some FontSize.XLarge) ∧ FontSize.XLarge ≠ FontSize.XXLarge := by
  decide

/-- C5 (amended): when a node declares no font-size and there is nothing
to inherit (no parent, or the parent's resolved font-size is Medium), the
resolved font-size is the element-kind default: XXLarge for h1, XLarge for
h2, Medium for every other element and for non-element nodes. -/
theorem resolved_font_size_matches_element_kind (s : ComputedStyle)
    (hs : s.font_size = none) (node : NodeKind)
    (parent : Option ComputedStyle)
    (hp : parent = none ∨ ∃ q pbg pc ptd, parent = some q ∧
      q.background_color = some pbg ∧ q.color = some pc ∧
      q.font_size = some FontSize.Medium ∧ q.text_decoration = some ptd) :
    (s.defaulting node parent).map ComputedStyle.font_size =
      some (some (FontSize.default node)) ∧
    (∀ e, FontSize.default (NodeKind.Element e) =
      (if e.kind = ElementKind.h1 then FontSize.XXLarge
       else if e.kind = ElementKind.h2 then FontSize.XLarge
       else FontSize.Medium)) ∧
    (∀ txt, FontSize.default (NodeKind.Text txt) = FontSize.Medium) ∧
    FontSize.default NodeKind.Document = FontSize.Medium := by
  refine ⟨?_, ?_, fun txt => rfl, rfl⟩
  · rcases hp with rfl | ⟨q, pbg, pc, ptd, rfl, hbg, hc, hfs, htd⟩
    · rw [defaulting_no_parent]
      simp [ComputedStyle.fillDefaults, hs]
    · rw [defaulting_fields s node q pbg pc FontSize.Medium ptd hbg hc hfs
        htd]
      simp [hs]
  · intro e
    cases he : e.kind <;> simp [FontSize.default, he]

/-- C5 witness: an h1 with nothing declared and no parent resolves its
font-size to the h1 default, XXLarge. -/
theorem resolved_font_size_witness :
    (ComputedStyle.new.defaulting (NodeKind.Element h1Elem) none).map
        ComputedStyle.font_size =
      some (some (FontSize.default (NodeKind.Element h1Elem))) ∧
    FontSize.default (NodeKind.Element h1Elem) = FontSize.XXLarge :=
  ⟨(resolved_font_size_matches_element_kind ComputedStyle.new rfl
      (NodeKind.Element h1Elem) none (Or.inl rfl)).1, rfl⟩

/-- C7: whenever `ComputedStyle::defaulting` returns (instead of
panicking on a not-yet-resolved parent), the resulting style has every one
of its ten fields present, so every property accessor succeeds; and on a
freshly constructed `ComputedStyle` — before defaulting has run — every
field is absent, so every property accessor aborts. -/
theorem defaulting_completes_accessors :
    (∀ (s : ComputedStyle) (node : NodeKind)
        (parent : Option ComputedStyle) (t : ComputedStyle),
        s.defaulting node parent = some t → t.isComplete = true) ∧
    (ComputedStyle.new.background_color = none ∧
     ComputedStyle.new.color = none ∧
     ComputedStyle.new.display = none ∧
     ComputedStyle.new.font_size = none ∧
     ComputedStyle.new.height = none ∧
     ComputedStyle.new.margin = none ∧
     ComputedStyle.new.padding = none ∧
     ComputedStyle.new.text_decoration = none ∧
     ComputedStyle.new.white_space = none ∧
     ComputedStyle.new.width = none) := by
  constructor
  · intro s node parent t h
    unfold ComputedStyle.defaulting at h
    obtain ⟨u, -, rfl⟩ := Option.map_eq_some'.mp h
    simp [ComputedStyle.fillDefaults, ComputedStyle.isComplete]
  · exact ⟨rfl, rfl, rfl, rfl, rfl, rfl, rfl, rfl, rfl, rfl⟩

/-- C7 witness: the defaulted document style is complete. -/
theorem defaulting_completes_accessors_witness : docStyle.isComplete = true :=
  defaulting_completes_accessors.1 ComputedStyle.new NodeKind.Document none
    docStyle (by decide)

/-- The value slot currently observable at a DOM handle. -/
def valueAt {LV : Type} (p : Page LV) (i : NodeId) : Option String :=
  match getNode p.dom i with
  | some (NodeKind.Element e) => e.value
  | _ => none

lemma getNode_setNodeValue (d : DomStore) (i : NodeId) (v : String)
    (e : Element) (h : getNode d i = some (NodeKind.Element e)) :
    getNode (setNodeValue d i v) i =
      some (NodeKind.Element { e with value := some v }) := by
  induction d with
  | nil => simp [getNode] at h
  | cons hd tl ih =>
      obtain ⟨j, k⟩ := hd
      by_cases hj : j = i
      · subst hj
        simp [getNode] at h
        subst h
        simp [setNodeValue, getNode]
      · simp [getNode, hj] at h
        simp [setNodeValue, getNode, hj]
        exact ih h

/-- A page (over the trivial layout-view type) showing a focused input
holding "ab", for exercising `handle_input`. -/
def pageFocusedTab : Page Unit :=
  { frame := some 0,
    dom := [(0, NodeKind.Document),
            (5, NodeKind.Element { inputElem with value := some "ab" })],
    style := some [], layout_view := some (), subresources := [],
    display_items := [], modified := false, focused_input := some 5 }

/-- C2 counterexample: with an input focused, `handle_input` on a tab
character (neither backspace nor printable) applies no edit — the page,
its DOM included, is unchanged — yet returns true; so the returned
boolean is not "whether an edit was applied". -/
theorem handle_input_true_without_edit_cex :
    (Page.handle_input pageFocusedTab (Char.ofNat 9)).1 = true ∧
    (Page.handle_input pageFocusedTab (Char.ofNat 9)).2 = pageFocusedTab := by
  decide

lemma valueAt_set {LV : Type} (p : Page LV) (i : NodeId) (v : String)
    (e : Element) (hn : getNode p.dom i = some (NodeKind.Element e)) :
    valueAt { p with dom := setNodeValue p.dom i v } i = some v := by
  have h := getNode_setNodeValue p.dom i v e hn
  simp [valueAt, h]

/-- The action of `Page::handle_input` once an input element is focused:
reported handled, with the value edit selected by the key class. -/
lemma handle_input_eq {LV : Type} (p : Page LV) (key : Char) (i : NodeId)
    (e : Element) (hf : p.focused_input = some i)
    (hn : getNode p.dom i = some (NodeKind.Element e))
    (hk : e.kind = ElementKind.input) :
    Page.handle_input p key =
      (true,
       if isBackspaceKey key then
         if (e.value.getD "").toList = [] then p
         else { p with dom := setNodeValue p.dom i (String.mk (e.value.getD "").toList.dropLast) }
       else if isPrintableKey key then
         { p with dom := setNodeValue p.dom i ((e.value.getD "").push key) }
       else p) := by
  unfold Page.handle_input
  rw [hf]
  dsimp only
  rw [hn]
  dsimp only
  rw [hk]
  rw [if_pos rfl]
  split <;> split <;> rfl

/-- C2 (amended): `handle_input` is a no-op returning false when no input
is focused (or the focused handle is not an input element); when a focused
input exists it returns true for **every** key — whether or not an edit
was applied: backspace/delete drops the last character of the value (kept
as is when already empty), an ASCII-printable character or space is
appended, any other key leaves the page unchanged but is still reported
as handled. -/
theorem handle_input_edits {LV : Type} (p : Page LV) (key : Char) :
    (p.focused_input = none → Page.handle_input p key = (false, p)) ∧
    (∀ i e, p.focused_input = some i →
      getNode p.dom i = some (NodeKind.Element e) →
      e.kind = ElementKind.input →
      (Page.handle_input p key).1 = true ∧
      (isBackspaceKey key = true → (e.value.getD "").toList = [] →
        (Page.handle_input p key).2 = p) ∧
      (isBackspaceKey key = true → (e.value.getD "").toList ≠ [] →
        valueAt (Page.handle_input p key).2 i =
          some (String.mk (e.value.getD "").toList.dropLast)) ∧
      (isBackspaceKey key = false → isPrintableKey key = true →
        valueAt (Page.handle_input p key).2 i =
          some ((e.value.getD "").push key)) ∧
      (isBackspaceKey key = false → isPrintableKey key = false →
        (Page.handle_input p key).2 = p)) := by
  constructor
  · intro h
    simp [Page.handle_input, h]
  · intro i e hf hn hk
    have hstep := handle_input_eq p key i e hf hn hk
    refine ⟨by rw [hstep], ?_, ?_, ?_, ?_⟩
    · intro hb hv
      rw [hstep, if_pos hb, if_pos hv]
    · intro hb hv
      rw [hstep, if_pos hb, if_neg hv]
      exact valueAt_set p i _ e hn
    · intro hb hp
      have hb2 : ¬ isBackspaceKey key = true := by simp [hb]
      rw [hstep, if_neg hb2, if_pos hp]
      exact valueAt_set p i _ e hn
    · intro hb hp
      have hb2 : ¬ isBackspaceKey key = true := by simp [hb]
      have hp2 : ¬ isPrintableKey key = true := by simp [hp]
      rw [hstep, if_neg hb2, if_neg hp2]

/-- C2 witness: typing the letter x into the focused input holding "ab"
is reported handled and yields "abx". -/
theorem handle_input_edits_witness :
    (Page.handle_input pageFocusedTab (Char.ofNat 120)).1 = true ∧
    valueAt (Page.handle_input pageFocusedTab (Char.ofNat 120)).2 5 =
      some "abx" := by
  obtain ⟨-, h⟩ := handle_input_edits pageFocusedTab (Char.ofNat 120)
  obtain ⟨h1, -, -, hp, -⟩ :=
    h 5 { inputElem with value := some "ab" } rfl rfl rfl
  refine ⟨h1, ?_⟩
  rw [hp (by decide) (by decide)]
  decide

/-- A page with a focused input whose value slot is still unset. -/
def pageFocusedEmpty : Page Unit :=
  { frame := some 0, dom := [(7, NodeKind.Element inputElem)],
    style := some [], layout_view := some (), subresources := [],
    display_items := [], modified := false, focused_input := some 7 }

/-- C3: backspace on a focused input whose current value is empty leaves
the page (hence the value) unchanged and still returns true. -/
theorem handle_backspace_empty {LV : Type} (p : Page LV) (key : Char)
    (i : NodeId) (e : Element) (hf : p.focused_input = some i)
    (hn : getNode p.dom i = some (NodeKind.Element e))
    (hk : e.kind = ElementKind.input) (hb : isBackspaceKey key = true)
    (hv : (e.value.getD "").toList = []) :
    Page.handle_input p key = (true, p) := by
  rw [handle_input_eq p key i e hf hn hk, if_pos hb, if_pos hv]

/-- C3 witness: backspace (0x08) on the empty focused input. -/
theorem handle_backspace_empty_witness :
    Page.handle_input pageFocusedEmpty (Char.ofNat 8) =
      (true, pageFocusedEmpty) :=
  handle_backspace_empty pageFocusedEmpty (Char.ofNat 8) 7 inputElem rfl rfl
    rfl (by decide) rfl

/-- A page holding an input element at handle 5, nothing focused yet. -/
def pageWithInput : Page Unit :=
  { frame := some 0,
    dom := [(0, NodeKind.Document), (5, NodeKind.Element inputElem)],
    style := some [], layout_view := some (), subresources := [],
    display_items := [], modified := false, focused_input := none }

/-- A hit-test stub whose deepest box at every position is the input at
handle 5 (its layout parent being the document at handle 0). -/
def hitAtInput : Unit → Pos → Option HitInfo := fun _ _ => some ⟨5, some 0⟩

/-- A page with a box tree present and the input at handle 5 focused,
paired below with a hit test that finds no box. -/
def pageFocusedNoHit : Page Unit :=
  { frame := some 0,
    dom := [(0, NodeKind.Document), (5, NodeKind.Element inputElem)],
    style := some [], layout_view := some (), subresources := [],
    display_items := [], modified := false, focused_input := some 5 }

/-- C1 counterexample: a box tree exists and the click hits no box at all
— so in particular it does not land on an input — yet the previously
focused input stays focused: `Page::clicked` only clears focus inside the
branch where the hit test found a node. -/
theorem clicked_miss_keeps_focus_cex :
    pageFocusedNoHit.layout_view.isSome = true ∧
    (fun (_ : Unit) (_ : Pos) => (none : Option HitInfo))
        pageFocusedNoHit.layout_view.get! (3, 3) = none ∧
    (Page.clicked (fun _ _ => none) pageFocusedNoHit (3, 3)).2.focused_input
      = some 5 := by
  decide

/-- C1 (amended): with a box tree present, if the hit test finds the
deepest box containing the position and its node is an input element,
that input becomes focused and no navigation is returned; if the found
node is not an input, focus is cleared; but if no box contains the
position, the page — its focus included — is left untouched (and nothing
is returned). -/
theorem clicked_focus_postcondition {LV : Type}
    (hit : LV → Pos → Option HitInfo) (p : Page LV) (position : Pos)
    (v : LV) (hv : p.layout_view = some v) :
    (∀ n, hit v position = some n → isInputNode p.dom n.node = true →
      (Page.clicked hit p position).2.focused_input = some n.node ∧
      (Page.clicked hit p position).1 = none) ∧
    (∀ n, hit v position = some n → isInputNode p.dom n.node = false →
      (Page.clicked hit p position).2.focused_input = none) ∧
    (hit v position = none →
      (Page.clicked hit p position).2 = p ∧
      (Page.clicked hit p position).1 = none) := by
  refine ⟨?_, ?_, ?_⟩
  · intro n hn hi
    unfold Page.clicked
    rw [hv]
    dsimp only
    rw [hn]
    dsimp only
    rw [hi]
    exact ⟨rfl, rfl⟩
  · intro n hn hi
    unfold Page.clicked
    rw [hv]
    dsimp only
    rw [hn]
    dsimp only
    rw [hi, if_neg Bool.false_ne_true]
    cases hpar : n.parent with
    | none => rfl
    | some parentId =>
        dsimp only
        cases hpk : getNode p.dom parentId with
        | none => rfl
        | some k =>
            cases k with
            | Document => rfl
            | Text t => rfl
            | Element e =>
                dsimp only
                by_cases ha : e.kind = ElementKind.a
                · rw [if_pos ha]
                · rw [if_neg ha]
  · intro hn
    unfold Page.clicked
    rw [hv]
    dsimp only
    rw [hn]
    exact ⟨rfl, rfl⟩

/-- C1 witness: clicking the input at handle 5 focuses it and returns no
navigation target. -/
theorem clicked_focus_witness :
    (Page.clicked hitAtInput pageWithInput (1, 1)).2.focused_input =
      some 5 ∧
    (Page.clicked hitAtInput pageWithInput (1, 1)).1 = none :=
  (clicked_focus_postcondition hitAtInput pageWithInput (1, 1) () rfl).1
    ⟨5, some 0⟩ rfl rfl

/-- C9: `refresh_display` is idempotent on the display list: with no
intervening state change, a second call rebuilds the layout view from the
same DOM and stylesheet and repaints it, yielding the identical display
list. (`LayoutView::new` and `LayoutView::paint` live in the layout
collaborator; the spec fixes them to be deterministic, so they enter here
as the pure functions `build` and `paint`.) -/
theorem refresh_display_idempotent {LV : Type}
    (build : NodeId → DomStore → StyleSheet → LV)
    (paint : LV → List DisplayItem) (p : Page LV) :
    (Page.refresh_display build paint
        (Page.refresh_display build paint p)).display_items =
      (Page.refresh_display build paint p).display_items := by
  obtain ⟨f, d, st, l, sub, di, m, fi⟩ := p
  cases f with
  | none => cases l <;> rfl
  | some root =>
      cases st with
      | none => cases l <;> rfl
      | some s0 => rfl

/-- The operations a `Page` undergoes during a session, each mirroring one
public method of page.rs. `receive` stands for `receive_response`: its
frame/style/layout/display/modified outcome is produced by the parser,
script and layout collaborators, so it appears here as an arbitrary
replacement of exactly those fields — page.rs's `receive_response` never
touches `subresources` (nor the focused input). -/
inductive PageOp (LV : Type) where
  | click (hit : LV → Pos → Option HitInfo) (position : Pos)
  | key (c : Char)
  | refresh (build : NodeId → DomStore → StyleSheet → LV)
      (paint : LV → List DisplayItem)
  | receive (frame : Option NodeId) (dom : DomStore)
      (style : Option StyleSheet) (lv : Option LV)
      (items : List DisplayItem) (modified : Bool)
  | pushSub (src : String)
  | clearItems

/-- Apply one session operation to a page. -/
def Page.applyOp {LV : Type} (p : Page LV) : PageOp LV → Page LV
  | PageOp.click hit position => (Page.clicked hit p position).2
  | PageOp.key c => (Page.handle_input p c).2
  | PageOp.refresh build paint => Page.refresh_display build paint p
  | PageOp.receive f d s l it m =>
      { p with frame := f, dom := d, style := s, layout_view := l,
               display_items := it, modified := m }
  | PageOp.pushSub src => p.push_url_for_subresource src
  | PageOp.clearItems => p.clear_display_items

/-- Apply a session's operations in order. -/
def Page.applyOps {LV : Type} (p : Page LV) (ops : List (PageOp LV)) :
    Page LV :=
  ops.foldl Page.applyOp p

/-- Every registered subresource still has empty content. -/
def subresourcesAllEmpty {LV : Type} (p : Page LV) : Bool :=
  p.subresources.all (fun s => s.resource = "")

lemma clicked_subresources {LV : Type} (hit : LV → Pos → Option HitInfo)
    (p : Page LV) (position : Pos) :
    (Page.clicked hit p position).2.subresources = p.subresources := by
  unfold Page.clicked
  repeat' split
  all_goals rfl

lemma handle_input_subresources {LV : Type} (p : Page LV) (key : Char) :
    (Page.handle_input p key).2.subresources = p.subresources := by
  unfold Page.handle_input
  repeat' split
  all_goals first
  | rfl
  | (dsimp only; split <;> rfl)

lemma refresh_display_subresources {LV : Type}
    (build : NodeId → DomStore → StyleSheet → LV)
    (paint : LV → List DisplayItem) (p : Page LV) :
    (Page.refresh_display build paint p).subresources = p.subresources := by
  unfold Page.refresh_display Page.set_layout_view Page.paint_tree
  repeat' split
  all_goals rfl

lemma applyOp_subresourcesAllEmpty {LV : Type} (p : Page LV)
    (op : PageOp LV) (h : subresourcesAllEmpty p = true) :
    subresourcesAllEmpty (p.applyOp op) = true := by
  cases op with
  | click hit position =>
      unfold Page.applyOp subresourcesAllEmpty
      rw [clicked_subresources]
      exact h
  | key c =>
      unfold Page.applyOp subresourcesAllEmpty
      rw [handle_input_subresources]
      exact h
  | refresh build paint =>
      unfold Page.applyOp subresourcesAllEmpty
      rw [refresh_display_subresources]
      exact h
  | receive f d s l it m => exact h
  | pushSub src =>
      unfold Page.applyOp Page.push_url_for_subresource subresourcesAllEmpty
      unfold subresourcesAllEmpty at h
      rw [List.all_append]
      simp [h, Subresource.new]
  | clearItems => exact h

/-- C10: whatever session operations a fresh page undergoes, `subresource`
returns the empty string for every URL: `push_url_for_subresource`
registers the URL with empty content (the fetch is a TODO in page.rs), no
operation ever fills a subresource's content, and a lookup miss also
yields the empty string — hits and misses are indistinguishable. -/
lemma applyOps_subresourcesAllEmpty {LV : Type} (ops : List (PageOp LV)) :
    ∀ p : Page LV, subresourcesAllEmpty p = true →
      subresourcesAllEmpty (Page.applyOps p ops) = true := by
  induction ops with
  | nil => exact fun p h => h
  | cons op rest ih =>
      intro p h
      have hrec := ih (p.applyOp op) (applyOp_subresourcesAllEmpty p op h)
      simpa [Page.applyOps, List.foldl] using hrec

theorem subresource_always_empty {LV : Type} (ops : List (PageOp LV))
    (u : String) :
    (Page.applyOps (Page.new LV) ops).subresource u = "" := by
  have hinv : subresourcesAllEmpty (Page.applyOps (Page.new LV) ops)
      = true := applyOps_subresourcesAllEmpty ops (Page.new LV) rfl
  unfold Page.subresource
  cases hfind : (Page.applyOps (Page.new LV) ops).subresources.find?
      (fun s => s.src = u) with
  | none => rfl
  | some s =>
      have hmem := List.mem_of_find?_eq_some hfind
      have := List.all_eq_true.mp hinv s hmem
      simpa using this

/-- Modelled from the spec (§4.2): the DOM seen by the layout tree
builder, as a tree — each node carries its kind, its cascaded display
declaration when one applies (display is not inherited, so the cascaded
value is all that competes with the element-kind default), and its
children. -/
inductive DomTree where
  | node (kind : NodeKind) (declaredDisplay : Option DisplayType)
      (children : List DomTree)

/-- Modelled from the spec (§4.1): the resolved display of one node: the
cascaded declaration when present, else `DisplayType::default`. -/
def resolveDisplay (kind : NodeKind) (dd : Option DisplayType) :
    DisplayType :=
  dd.getD (DisplayType.default kind)

/-- Modelled from the spec (§3): a box-tree node mirrors the surviving
DOM node. Geometry is irrelevant to box-tree membership and is omitted. -/
inductive BoxTree where
  | box (kind : NodeKind) (children : List BoxTree)

mutual

/-- Modelled from the spec (§4.2): pre-order walk of the DOM; a node
whose resolved display is None is excluded **together with its entire
subtree**; surviving nodes become boxes. -/
def buildBox : DomTree → Option BoxTree
  | DomTree.node kind dd children =>
      if resolveDisplay kind dd = DisplayType.DisplayNone then none
      else some (BoxTree.box kind (buildBoxes children))

/-- The surviving boxes of a list of sibling DOM nodes, in order. -/
def buildBoxes : List DomTree → List BoxTree
  | [] => []
  | t :: ts =>
      match buildBox t with
      | none => buildBoxes ts
      | some b => b :: buildBoxes ts

end

mutual

/-- Modelled from the spec (§4.3): painting walks the box tree in
document (pre-)order; each box contributes an item for its node. The
display list is abstracted to the sequence of originating node kinds,
which is what box/display-list membership is about. -/
def BoxTree.paintKinds : BoxTree → List NodeKind
  | BoxTree.box kind children => kind :: paintKindsList children

/-- Pre-order paint of a list of sibling boxes. -/
def paintKindsList : List BoxTree → List NodeKind
  | [] => []
  | b :: bs => b.paintKinds ++ paintKindsList bs

end

/-- The display list painted from a DOM tree: build the box tree, then
paint it (an excluded root paints nothing). -/
def displayListOf (t : DomTree) : List NodeKind :=
  match buildBox t with
  | none => []
  | some b => b.paintKinds

lemma buildBoxes_append (xs ys : List DomTree) :
    buildBoxes (xs ++ ys) = buildBoxes xs ++ buildBoxes ys := by
  induction xs with
  | nil => simp [buildBoxes]
  | cons t ts ih =>
      rw [List.cons_append]
      cases hbt : buildBox t <;> simp [buildBoxes, hbt, ih]

/-- C6: a script or style element with no explicit display declaration
resolves to display None; consequently it yields no box at all — so
neither it nor any of its descendants appears in the box tree or in the
painted display list — and a parent tree containing it builds exactly the
box tree it would build with that subtree deleted. -/
theorem script_style_excluded (e : Element)
    (hk : e.kind = ElementKind.script ∨ e.kind = ElementKind.style)
    (children : List DomTree) :
    resolveDisplay (NodeKind.Element e) none = DisplayType.DisplayNone ∧
    buildBox (DomTree.node (NodeKind.Element e) none children) = none ∧
    displayListOf (DomTree.node (NodeKind.Element e) none children) = [] ∧
    (∀ (pk : NodeKind) (pdd : Option DisplayType) (pre post : List DomTree),
      buildBox (DomTree.node pk pdd
        (pre ++ DomTree.node (NodeKind.Element e) none children :: post)) =
      buildBox (DomTree.node pk pdd (pre ++ post))) := by
  have hres : resolveDisplay (NodeKind.Element e) none =
      DisplayType.DisplayNone := by
    unfold resolveDisplay DisplayType.default
    rcases hk with h | h <;> simp [h]
  have hbuild : buildBox (DomTree.node (NodeKind.Element e) none children)
      = none := by
    unfold buildBox
    rw [if_pos hres]
  refine ⟨hres, hbuild, ?_, ?_⟩
  · unfold displayListOf
    rw [hbuild]
  · intro pk pdd pre post
    have hcons : buildBoxes
        (DomTree.node (NodeKind.Element e) none children :: post) =
        buildBoxes post := by
      simp [buildBoxes, hbuild]
    unfold buildBox
    rw [buildBoxes_append, buildBoxes_append, hcons]

/-- C6 witness: a bare script element builds no box. -/
theorem script_style_excluded_witness :
    buildBox (DomTree.node
      (NodeKind.Element ⟨ElementKind.script, [], none⟩) none []) = none :=
  (script_style_excluded ⟨ElementKind.script, [], none⟩ (Or.inl rfl) []).2.1

/-- The `while self.modified` loop of `Page::receive_response` (page.rs
lines 174–187), abstracted to what drives it: each iteration re-parses
the serialized DOM, clears the flag, and re-runs the script engine, whose
i-th run reports `dom_modified` as `script i`. `fuel` bounds the
iterations we are willing to unroll (the Rust loop itself is unbounded);
the result is the iteration count on exit, or `none` if `fuel` ran out
with the flag still set. -/
def rerenderLoop (script : Nat → Bool) : Nat → Nat → Bool → Option Nat
  | _, _, false => some 0
  | 0, _, true => none
  | fuel + 1, i, true =>
      (rerenderLoop script fuel (i + 1) (script i)).map Nat.succ

/-- `receive_response` runs the script once (call 0) before entering the
loop, so the loop starts at call index 1 with the flag from call 0. -/
def receiveLoopIters (script : Nat → Bool) (fuel : Nat) : Option Nat :=
  rerenderLoop script fuel 1 (script 0)

lemma rerenderLoop_exits (script : Nat → Bool) :
    ∀ (d i : Nat) (b : Bool), (∀ j, i + d ≤ j → script j = false) →
      (rerenderLoop script (d + 1) i b).isSome = true := by
  intro d
  induction d with
  | zero =>
      intro i b h
      cases b with
      | false => rfl
      | true =>
          have hsi : script i = false := h i (by omega)
          simp [rerenderLoop, hsi]
  | succ d ih =>
      intro i b h
      cases b with
      | false => rfl
      | true =>
          have hrec := ih (i + 1) (script i) (fun j hj => h j (by omega))
          obtain ⟨k, hk⟩ := Option.isSome_iff_exists.mp hrec
          simp [rerenderLoop, hk]

/-- C8: the DOM-mutation re-render loop exits after finitely many
iterations for every script that mutates the DOM exactly N times and then
stops: N + 1 units of fuel already suffice for the loop to reach the exit
instead of running out. -/
theorem rerender_loop_terminates (N : Nat) (script : Nat → Bool)
    (hscript : ∀ j, script j = decide (j < N)) :
    (receiveLoopIters script (N + 1)).isSome = true := by
  unfold receiveLoopIters
  exact rerenderLoop_exits script N 1 (script 0)
    (fun j hj => by rw [hscript j]; simp; omega)

/-- C8 witness: a script that mutates exactly twice and then stops lets
the loop exit within three units of fuel. -/
theorem rerender_loop_terminates_witness :
    (receiveLoopIters (fun j => decide (j < 2)) 3).isSome = true :=
  rerender_loop_terminates 2 (fun j => decide (j < 2)) (fun _ => rfl)
